import Mathlib

/-!
# Character personality randomizer: HTTP handlers of `main.go`

A shallow embedding of the request handlers of `src/main.go` and the
properties of their responses.

* The two datasets (`namesData`, `personalityData`) are process-wide values
  that are only read after start-up: the handlers take them as parameters.
* The process-wide random source is explicit state (`Rng`): an arbitrary
  infinite stream of raw values and a read position.  `rand.Intn n` reads one
  raw value and reduces it modulo `n`, so every index in `[0, n)` is a
  possible outcome, and it panics for `n = 0` as the library does.
* A run-time panic (`rand.Intn 0`, slice index out of range) is the
  `Except.error` result of a handler.
* The `http.ResponseWriter` is a record of the header map, the status line
  (absent until it is written) and the chunks written to the body.
-/

namespace CharacterRandomizer

/-! ## Data model (`main.go`, lines 12-35) -/

/-- The anonymous struct of the field `Names.FirstNames`. -/
structure SexedFirstNames where
  Male : List String
  Female : List String
  deriving DecidableEq, Repr

/-- The `Names` struct: first names by sex and last names. -/
structure Names where
  FirstNames : SexedFirstNames
  LastNames : List String
  deriving DecidableEq, Repr

/-- The element struct of `PersonalityData.PersonalityTypes`
(`json:"name"`, `json:"link"`). -/
structure PersonalityType where
  Name : String
  Link : String
  deriving DecidableEq, Repr, Inhabited

/-- The `PersonalityData` struct. -/
structure PersonalityData where
  PersonalityTypes : List PersonalityType
  Alignment : List String
  deriving DecidableEq, Repr

/-! ## JSON values and the response writer -/

/-- The JSON values the handlers encode: strings and objects (a Go map or
struct, as the list of its key/value pairs). -/
inductive Json where
  | str (s : String)
  | obj (fields : List (String × Json))
  deriving Repr

/-- The keys of a JSON object (none for a string). -/
def Json.keys : Json → List String
  | .str _ => []
  | .obj fields => fields.map Prod.fst

/-- The value under a key of a JSON object. -/
def Json.field (k : String) : Json → Option Json
  | .str _ => none
  | .obj fields => fields.lookup k

/-- The encoding of a `map[string]string`. -/
def jsonOfStringMap (m : List (String × String)) : Json :=
  .obj (m.map fun e => (e.1, Json.str e.2))

/-- The encoding of a personality type struct under its field tags. -/
def jsonOfPersonalityType (p : PersonalityType) : Json :=
  .obj [("name", .str p.Name), ("link", .str p.Link)]

/-- One write to the response body: plain text or an encoded JSON value. -/
inductive Chunk where
  | text (s : String)
  | json (v : Json)
  deriving Repr

/-- The header map, as an association list with one value per key. -/
abbrev Header := List (String × String)

/-- The call `Header.Set`: replaces the values of the key. -/
def Header.Set (h : Header) (k v : String) : Header :=
  (k, v) :: h.filter fun e => e.1 != k

/-- The call `Header.Get`: the value of the key, `""` when it has none. -/
def Header.Get (h : Header) (k : String) : String :=
  (h.lookup k).getD ""

/-- The state of an `http.ResponseWriter`. -/
structure ResponseWriter where
  header : Header
  status : Option Nat
  body : List Chunk

/-- The response writer the server hands to a handler: nothing written. -/
def ResponseWriter.unwritten (hdr : Header) : ResponseWriter :=
  { header := hdr, status := none, body := [] }

/-- The call `w.Header().Set(k, v)`. -/
def ResponseWriter.SetHeader (w : ResponseWriter) (k v : String) : ResponseWriter :=
  { w with header := w.header.Set k v }

/-- The call `w.WriteHeader(code)`: only the first call sets the status. -/
def ResponseWriter.WriteHeader (w : ResponseWriter) (code : Nat) : ResponseWriter :=
  if w.status.isSome then w else { w with status := some code }

/-- The constant `http.StatusOK`. -/
def StatusOK : Nat := 200

/-- The constant `http.StatusInternalServerError`. -/
def StatusInternalServerError : Nat := 500

/-- The call `w.Write`: writes status 200 first when no status was written. -/
def ResponseWriter.Write (w : ResponseWriter) (c : Chunk) : ResponseWriter :=
  let w1 := w.WriteHeader StatusOK
  { w1 with body := w1.body ++ [c] }

/-- The library call `http.Error(w, msg, code)`: plain-text headers, the
status, and the message followed by a newline. -/
def httpError (w : ResponseWriter) (msg : String) (code : Nat) : ResponseWriter :=
  let w1 := w.SetHeader "Content-Type" "text/plain; charset=utf-8"
  let w2 := w1.SetHeader "X-Content-Type-Options" "nosniff"
  let w3 := w2.WriteHeader code
  w3.Write (.text (msg ++ "\n"))

/-- The call `json.NewEncoder(w).Encode(v)`: one write of the encoded value. -/
def encodeJSON (w : ResponseWriter) (v : Json) : ResponseWriter :=
  w.Write (.json v)

/-! ## The random source -/

/-- The process-wide random source: an infinite stream of raw values and the
number of values drawn so far. -/
structure Rng where
  stream : Nat → Nat
  pos : Nat

/-- The call `rand.Intn(n)`: panics for `n = 0`, otherwise draws one raw
value and returns an index in `[0, n)`. -/
def Intn (n : Nat) (g : Rng) : Except String (Nat × Rng) :=
  if n = 0 then .error "invalid argument to Intn"
  else .ok (g.stream g.pos % n, { g with pos := g.pos + 1 })

/-- The slice index expression `xs[i]`: panics out of range. -/
def index {α : Type} (xs : List α) (i : Nat) : Except String α :=
  match xs[i]? with
  | some x => .ok x
  | none => .error "index out of range"

/-! ## Handlers (`main.go`, lines 68-191) -/

/-- The fields of an `http.Request` the program reads. -/
structure Request where
  Method : String
  Path : String
  deriving DecidableEq, Repr

/-- An `http.HandlerFunc`, over the process state `σ` it may read and change:
it ends with the response writer and the state, or panics. -/
abbrev HandlerFunc (σ : Type) : Type :=
  ResponseWriter → Request → σ → Except String (ResponseWriter × σ)

/-- The function `setupCORS` (lines 69-83). -/
def setupCORS {σ : Type} (handler : HandlerFunc σ) : HandlerFunc σ := fun w r s =>
  let w := w.SetHeader "Access-Control-Allow-Origin" "*"
  let w := w.SetHeader "Access-Control-Allow-Methods" "GET, POST, OPTIONS"
  let w := w.SetHeader "Access-Control-Allow-Headers" "Content-Type"
  if r.Method = "OPTIONS" then
    .ok (w.WriteHeader StatusOK, s)
  else
    handler w r s

/-- The function `nameHandler` (lines 85-125). -/
def nameHandler (namesData : Names) : HandlerFunc Rng := fun w _r g => do
  let mut g := g
  if namesData.FirstNames.Male.length = 0 ∧ namesData.FirstNames.Female.length = 0
      ∧ namesData.LastNames.length = 0 then
    return (httpError w "Names data not loaded or empty" StatusInternalServerError, g)
  let sexes := ["Male", "Female"]
  let (i, g1) ← Intn sexes.length g
  g := g1
  let randomSex ← index sexes i
  let mut firstName := ""
  if randomSex = "Male" then
    if namesData.FirstNames.Male.length = 0 then
      return (httpError w "No Male first names available" StatusInternalServerError, g)
    let (j, g2) ← Intn namesData.FirstNames.Male.length g
    g := g2
    firstName ← index namesData.FirstNames.Male j
  else
    if namesData.FirstNames.Female.length = 0 then
      return (httpError w "No Female first names available" StatusInternalServerError, g)
    let (j, g2) ← Intn namesData.FirstNames.Female.length g
    g := g2
    firstName ← index namesData.FirstNames.Female j
  if namesData.LastNames.length = 0 then
    return (httpError w "No last names available" StatusInternalServerError, g)
  let (k, g3) ← Intn namesData.LastNames.length g
  g := g3
  let lastName ← index namesData.LastNames k
  let response := [("firstName", firstName), ("lastName", lastName), ("sex", randomSex)]
  let w := w.SetHeader "Content-Type" "application/json"
  return (encodeJSON w (jsonOfStringMap response), g)

/-- The function `personalityHandler` (lines 127-143). -/
def personalityHandler (personalityData : PersonalityData) : HandlerFunc Rng := fun w _r g => do
  let mut g := g
  if personalityData.PersonalityTypes.length = 0 ∧ personalityData.Alignment.length = 0 then
    return (httpError w "Personality data not loaded or empty" StatusInternalServerError, g)
  let (i, g1) ← Intn personalityData.PersonalityTypes.length g
  g := g1
  let randomPersonalityType ← index personalityData.PersonalityTypes i
  let (j, g2) ← Intn personalityData.Alignment.length g
  g := g2
  let randomAlignment ← index personalityData.Alignment j
  let response := Json.obj [
    ("personalityType", jsonOfPersonalityType randomPersonalityType),
    ("alignment", .str randomAlignment)]
  let w := w.SetHeader "Content-Type" "application/json"
  return (encodeJSON w response, g)

/-- The function `characterHandler` (lines 145-191). -/
def characterHandler (namesData : Names) (personalityData : PersonalityData) :
    HandlerFunc Rng := fun w _r g => do
  let mut g := g
  let sexes := ["Male", "Female"]
  let (i, g1) ← Intn sexes.length g
  g := g1
  let randomSex ← index sexes i
  let mut firstName := ""
  if randomSex = "Male" then
    if namesData.FirstNames.Male.length = 0 then
      return (httpError w "No Male first names available" StatusInternalServerError, g)
    let (j, g2) ← Intn namesData.FirstNames.Male.length g
    g := g2
    firstName ← index namesData.FirstNames.Male j
  else
    if namesData.FirstNames.Female.length = 0 then
      return (httpError w "No Female first names available" StatusInternalServerError, g)
    let (j, g2) ← Intn namesData.FirstNames.Female.length g
    g := g2
    firstName ← index namesData.FirstNames.Female j
  if namesData.LastNames.length = 0 then
    return (httpError w "No last names available" StatusInternalServerError, g)
  let (k, g3) ← Intn namesData.LastNames.length g
  g := g3
  let lastName ← index namesData.LastNames k
  if personalityData.PersonalityTypes.length = 0 ∨ personalityData.Alignment.length = 0 then
    return (httpError w "Personality data not loaded or empty" StatusInternalServerError, g)
  let (m, g4) ← Intn personalityData.PersonalityTypes.length g
  g := g4
  let randomPersonalityType ← index personalityData.PersonalityTypes m
  let (n, g5) ← Intn personalityData.Alignment.length g
  g := g5
  let randomAlignment ← index personalityData.Alignment n
  let response := Json.obj [
    ("sex", .str randomSex),
    ("firstName", .str firstName),
    ("lastName", .str lastName),
    ("personalityType", jsonOfPersonalityType randomPersonalityType),
    ("alignment", .str randomAlignment)]
  let w := w.SetHeader "Content-Type" "application/json"
  return (encodeJSON w response, g)

/-! ## What a client reads from a finished exchange -/

/-- The JSON record of a successful exchange: status 200 and one encoded
value as the body. -/
def successRecord {σ : Type} : Except String (ResponseWriter × σ) → Option Json
  | .ok (w, _) =>
    match w.status, w.body with
    | some code, [.json v] => if code = StatusOK then some v else none
    | _, _ => none
  | .error _ => none

/-- The status and the text of a failed exchange: a status other than 200
and one line of plain text as the body. -/
def errorReply {σ : Type} : Except String (ResponseWriter × σ) → Option (Nat × String)
  | .ok (w, _) =>
    match w.status, w.body with
    | some code, [.text s] => if code = StatusOK then none else some (code, s)
    | _, _ => none
  | .error _ => none

/-- The random source after `n` more draws. -/
def Rng.skip (g : Rng) (n : Nat) : Rng :=
  { g with pos := g.pos + n }

/-- The sex the next draw of the source selects from `["Male", "Female"]`. -/
def drawnSex (g : Rng) : String :=
  if g.stream g.pos % 2 = 0 then "Male" else "Female"

/-- The first-name list of a sex, as the handlers branch on it. -/
def firstNamesOf (namesData : Names) (sex : String) : List String :=
  if sex = "Male" then namesData.FirstNames.Male else namesData.FirstNames.Female

/-- The element a draw with raw value `k` selects from a list. -/
def chosen {α : Type} [Inhabited α] (xs : List α) (k : Nat) : α :=
  xs.getD (k % xs.length) default

/-- The record `nameHandler` encodes. -/
def nameRecord (firstName lastName sex : String) : Json :=
  jsonOfStringMap [("firstName", firstName), ("lastName", lastName), ("sex", sex)]

/-- The record `personalityHandler` encodes. -/
def personalityRecord (p : PersonalityType) (alignment : String) : Json :=
  .obj [("personalityType", jsonOfPersonalityType p), ("alignment", .str alignment)]

/-- The record `characterHandler` encodes. -/
def characterRecord (sex firstName lastName : String) (p : PersonalityType)
    (alignment : String) : Json :=
  .obj [("sex", .str sex), ("firstName", .str firstName), ("lastName", .str lastName),
    ("personalityType", jsonOfPersonalityType p), ("alignment", .str alignment)]

/-- The response writer of a successful exchange that encodes `v`. -/
def jsonResponse (w : ResponseWriter) (v : Json) : ResponseWriter :=
  encodeJSON (w.SetHeader "Content-Type" "application/json") v

/-- The header map after the three `Set` calls of `setupCORS`. -/
def corsHeader (hdr : Header) : Header :=
  ((hdr.Set "Access-Control-Allow-Origin" "*").Set
    "Access-Control-Allow-Methods" "GET, POST, OPTIONS").Set
    "Access-Control-Allow-Headers" "Content-Type"

/-! ## Sample datasets and random sources -/

/-- The names dataset of the fixture: one name in each list. -/
def fixtureNames : Names :=
  { FirstNames := { Male := ["Sam"], Female := ["Alex"] }, LastNames := ["Doe"] }

/-- A personality dataset with one personality type and one alignment. -/
def fixturePersonality : PersonalityData :=
  { PersonalityTypes := [{ Name := "INTJ", Link := "https://example.org/intj" }],
    Alignment := ["Lawful Good"] }

/-- A random source whose every raw value is `k`. -/
def constRng (k : Nat) : Rng :=
  { stream := fun _ => k, pos := 0 }

/-- A personality dataset with no personality type and one alignment. -/
def noTypesPersonality : PersonalityData :=
  { PersonalityTypes := [], Alignment := ["Lawful Good"] }

/-- A names dataset with no male first name. -/
def noMaleNames : Names :=
  { FirstNames := { Male := [], Female := ["Alex"] }, LastNames := ["Doe"] }

/-! ## Basic facts -/

theorem index_zero {α : Type} (x : α) (xs : List α) : index (x :: xs) 0 = .ok x := by
  simp [index]

theorem index_one {α : Type} (x y : α) (xs : List α) : index (x :: y :: xs) 1 = .ok y := by
  simp [index]

theorem index_mod {α : Type} [Inhabited α] (xs : List α) (k : Nat) (h : xs ≠ []) :
    index xs (k % xs.length) = .ok (chosen xs k) := by
  have hlt : k % xs.length < xs.length := Nat.mod_lt _ (List.length_pos.mpr h)
  simp [index, chosen, List.getD, List.getElem?_eq_getElem hlt]

theorem chosen_mem {α : Type} [Inhabited α] (xs : List α) (k : Nat) (h : xs ≠ []) :
    chosen xs k ∈ xs := by
  have hlt : k % xs.length < xs.length := Nat.mod_lt _ (List.length_pos.mpr h)
  simp [chosen, List.getD, List.getElem?_eq_getElem hlt]

theorem chosen_singleton {α : Type} [Inhabited α] (x : α) (k : Nat) : chosen [x] k = x := by
  have h := chosen_mem [x] k (by simp)
  simpa using h

theorem successRecord_jsonResponse {σ : Type} (hdr : Header) (v : Json) (s : σ) :
    successRecord (.ok (jsonResponse (.unwritten hdr) v, s)) = some v := by
  simp [successRecord, jsonResponse, encodeJSON, ResponseWriter.Write, ResponseWriter.WriteHeader,
    ResponseWriter.SetHeader, ResponseWriter.unwritten]

theorem errorReply_jsonResponse {σ : Type} (hdr : Header) (v : Json) (s : σ) :
    errorReply (.ok (jsonResponse (.unwritten hdr) v, s)) = none := by
  simp [errorReply, jsonResponse, encodeJSON, ResponseWriter.Write, ResponseWriter.WriteHeader,
    ResponseWriter.SetHeader, ResponseWriter.unwritten]

theorem errorReply_httpError {σ : Type} (hdr : Header) (msg : String) (s : σ) :
    errorReply (.ok (httpError (.unwritten hdr) msg StatusInternalServerError, s))
      = some (500, msg ++ "\n") := by
  simp [errorReply, httpError, ResponseWriter.Write, ResponseWriter.WriteHeader,
    ResponseWriter.SetHeader, ResponseWriter.unwritten, StatusInternalServerError, StatusOK]

theorem successRecord_httpError {σ : Type} (hdr : Header) (msg : String) (s : σ) :
    successRecord (.ok (httpError (.unwritten hdr) msg StatusInternalServerError, s)) = none := by
  simp [successRecord, httpError, ResponseWriter.Write, ResponseWriter.WriteHeader,
    ResponseWriter.SetHeader, ResponseWriter.unwritten, StatusInternalServerError, StatusOK]

/-! ## The handlers path by path -/

/-- The result of `nameHandler` on every path through its body. -/
theorem nameHandler_eq (namesData : Names) (w : ResponseWriter) (r : Request) (g : Rng) :
    nameHandler namesData w r g =
      if namesData.FirstNames.Male = [] ∧ namesData.FirstNames.Female = []
          ∧ namesData.LastNames = [] then
        .ok (httpError w "Names data not loaded or empty" StatusInternalServerError, g)
      else if g.stream g.pos % 2 = 0 then
        if namesData.FirstNames.Male = [] then
          .ok (httpError w "No Male first names available" StatusInternalServerError, g.skip 1)
        else if namesData.LastNames = [] then
          .ok (httpError w "No last names available" StatusInternalServerError, g.skip 2)
        else
          .ok (jsonResponse w (nameRecord
            (chosen namesData.FirstNames.Male (g.stream (g.pos + 1)))
            (chosen namesData.LastNames (g.stream (g.pos + 2))) "Male"), g.skip 3)
      else
        if namesData.FirstNames.Female = [] then
          .ok (httpError w "No Female first names available" StatusInternalServerError, g.skip 1)
        else if namesData.LastNames = [] then
          .ok (httpError w "No last names available" StatusInternalServerError, g.skip 2)
        else
          .ok (jsonResponse w (nameRecord
            (chosen namesData.FirstNames.Female (g.stream (g.pos + 1)))
            (chosen namesData.LastNames (g.stream (g.pos + 2))) "Female"), g.skip 3) := by
  unfold nameHandler
  rcases Nat.mod_two_eq_zero_or_one (g.stream g.pos) with h2 | h2 <;>
    by_cases hm : namesData.FirstNames.Male = [] <;>
    by_cases hf : namesData.FirstNames.Female = [] <;>
    by_cases hl : namesData.LastNames = [] <;>
    simp [hm, hf, hl, h2, Intn, index_zero, index_one, index_mod, Rng.skip, bind, Except.bind,
      pure, Except.pure, Nat.add_assoc, jsonResponse, nameRecord]

/-- The result of `personalityHandler` on every path through its body. -/
theorem personalityHandler_eq (personalityData : PersonalityData) (w : ResponseWriter)
    (r : Request) (g : Rng) :
    personalityHandler personalityData w r g =
      if personalityData.PersonalityTypes = [] ∧ personalityData.Alignment = [] then
        .ok (httpError w "Personality data not loaded or empty" StatusInternalServerError, g)
      else if personalityData.PersonalityTypes = [] ∨ personalityData.Alignment = [] then
        .error "invalid argument to Intn"
      else
        .ok (jsonResponse w (personalityRecord
          (chosen personalityData.PersonalityTypes (g.stream g.pos))
          (chosen personalityData.Alignment (g.stream (g.pos + 1)))), g.skip 2) := by
  unfold personalityHandler
  by_cases hp : personalityData.PersonalityTypes = [] <;>
    by_cases ha : personalityData.Alignment = [] <;>
    simp [hp, ha, Intn, index_mod, Rng.skip, bind, Except.bind, pure, Except.pure,
      Nat.add_assoc, jsonResponse, personalityRecord]

/-- The result of `characterHandler` on every path through its body. -/
theorem characterHandler_eq (namesData : Names) (personalityData : PersonalityData)
    (w : ResponseWriter) (r : Request) (g : Rng) :
    characterHandler namesData personalityData w r g =
      if firstNamesOf namesData (drawnSex g) = [] then
        .ok (httpError w ("No " ++ drawnSex g ++ " first names available")
          StatusInternalServerError, g.skip 1)
      else if namesData.LastNames = [] then
        .ok (httpError w "No last names available" StatusInternalServerError, g.skip 2)
      else if personalityData.PersonalityTypes = [] ∨ personalityData.Alignment = [] then
        .ok (httpError w "Personality data not loaded or empty" StatusInternalServerError,
          g.skip 3)
      else
        .ok (jsonResponse w (characterRecord (drawnSex g)
          (chosen (firstNamesOf namesData (drawnSex g)) (g.stream (g.pos + 1)))
          (chosen namesData.LastNames (g.stream (g.pos + 2)))
          (chosen personalityData.PersonalityTypes (g.stream (g.pos + 3)))
          (chosen personalityData.Alignment (g.stream (g.pos + 4)))), g.skip 5) := by
  unfold characterHandler
  rcases Nat.mod_two_eq_zero_or_one (g.stream g.pos) with h2 | h2 <;>
    by_cases hm : namesData.FirstNames.Male = [] <;>
    by_cases hf : namesData.FirstNames.Female = [] <;>
    by_cases hl : namesData.LastNames = [] <;>
    by_cases hp : personalityData.PersonalityTypes = [] <;>
    by_cases ha : personalityData.Alignment = [] <;>
    simp [hm, hf, hl, hp, ha, h2, Intn, index_zero, index_one, index_mod, Rng.skip, bind,
      Except.bind, pure, Except.pure, Nat.add_assoc, jsonResponse, characterRecord, drawnSex,
      firstNamesOf]

/-! ## Properties of the endpoints -/

/-- C1: on every names dataset and every state of the random source,
`nameHandler` returns a success record exactly when the first-name list of
the drawn sex and the last-name list are both non-empty, and a 500 error in
every other case; so it fails whenever the last names are empty and whenever
all three lists are empty. -/
theorem nameHandler_success_iff (namesData : Names) (hdr : Header) (r : Request) (g : Rng) :
    ((successRecord (nameHandler namesData (.unwritten hdr) r g)).isSome ↔
      (firstNamesOf namesData (drawnSex g) ≠ [] ∧ namesData.LastNames ≠ [])) ∧
    (¬ (firstNamesOf namesData (drawnSex g) ≠ [] ∧ namesData.LastNames ≠ []) →
      ∃ msg, errorReply (nameHandler namesData (.unwritten hdr) r g) = some (500, msg)) ∧
    (namesData.LastNames = [] →
      ∃ msg, errorReply (nameHandler namesData (.unwritten hdr) r g) = some (500, msg)) ∧
    (namesData.FirstNames.Male = [] ∧ namesData.FirstNames.Female = []
        ∧ namesData.LastNames = [] →
      errorReply (nameHandler namesData (.unwritten hdr) r g)
        = some (500, "Names data not loaded or empty\n")) := by
  rw [nameHandler_eq]
  unfold firstNamesOf drawnSex
  refine ⟨?_, ?_, ?_, ?_⟩
  · split_ifs <;>
      simp_all [successRecord_jsonResponse, successRecord_httpError]
  · split_ifs <;>
      simp_all [errorReply_httpError]
  · split_ifs <;>
      simp_all [errorReply_httpError]
  · split_ifs <;>
      simp_all [errorReply_httpError]

/-- C2: whenever `nameHandler`, `personalityHandler` or `characterHandler`
returns a success record, each selected value is a member of the list it was
picked from: the sex is "Male" or "Female", the first name is in the male
list for "Male" and in the female list for "Female", the last name is in
the last names, the personality type in the personality types and the
alignment in the alignments. -/
theorem selected_values_are_members (namesData : Names) (personalityData : PersonalityData)
    (hdr : Header) (r : Request) (g : Rng) :
    (∀ v, successRecord (nameHandler namesData (.unwritten hdr) r g) = some v →
      ∃ sex firstName lastName, v = nameRecord firstName lastName sex ∧
        (sex = "Male" ∨ sex = "Female") ∧
        (sex = "Male" → firstName ∈ namesData.FirstNames.Male) ∧
        (sex = "Female" → firstName ∈ namesData.FirstNames.Female) ∧
        lastName ∈ namesData.LastNames) ∧
    (∀ v, successRecord (personalityHandler personalityData (.unwritten hdr) r g) = some v →
      ∃ p alignment, v = personalityRecord p alignment ∧
        p ∈ personalityData.PersonalityTypes ∧ alignment ∈ personalityData.Alignment) ∧
    (∀ v, successRecord (characterHandler namesData personalityData (.unwritten hdr) r g)
        = some v →
      ∃ sex firstName lastName p alignment,
        v = characterRecord sex firstName lastName p alignment ∧
        (sex = "Male" ∨ sex = "Female") ∧
        (sex = "Male" → firstName ∈ namesData.FirstNames.Male) ∧
        (sex = "Female" → firstName ∈ namesData.FirstNames.Female) ∧
        lastName ∈ namesData.LastNames ∧
        p ∈ personalityData.PersonalityTypes ∧ alignment ∈ personalityData.Alignment) := by
  refine ⟨?_, ?_, ?_⟩
  · intro v hv
    rw [nameHandler_eq] at hv
    split_ifs at hv with h0 h2 hm hl hf hl
    all_goals simp only [successRecord_httpError, successRecord_jsonResponse, Option.some.injEq,
      reduceCtorEq] at hv
    · exact ⟨"Male", _, _, hv.symm, Or.inl rfl, fun _ => chosen_mem _ _ hm,
        fun h => absurd h (by decide), chosen_mem _ _ hl⟩
    · exact ⟨"Female", _, _, hv.symm, Or.inr rfl, fun h => absurd h (by decide),
        fun _ => chosen_mem _ _ hf, chosen_mem _ _ hl⟩
  · intro v hv
    rw [personalityHandler_eq] at hv
    split_ifs at hv with h0 h1
    · simp only [successRecord_httpError, reduceCtorEq] at hv
    · simp [successRecord] at hv
    · simp only [successRecord_jsonResponse, Option.some.injEq] at hv
      rw [not_or] at h1
      exact ⟨_, _, hv.symm, chosen_mem _ _ h1.1, chosen_mem _ _ h1.2⟩
  · intro v hv
    rw [characterHandler_eq] at hv
    split_ifs at hv with hf hl hp
    all_goals simp only [successRecord_httpError, successRecord_jsonResponse, Option.some.injEq,
      reduceCtorEq] at hv
    rw [not_or] at hp
    refine ⟨drawnSex g, _, _, _, _, hv.symm, ?_, ?_, ?_, chosen_mem _ _ hl,
      chosen_mem _ _ hp.1, chosen_mem _ _ hp.2⟩
    · unfold drawnSex
      split_ifs <;> simp
    · intro hs
      have := chosen_mem _ (g.stream (g.pos + 1)) hf
      rw [hs] at this hf ⊢
      simpa [firstNamesOf] using this
    · intro hs
      have := chosen_mem _ (g.stream (g.pos + 1)) hf
      rw [hs] at this hf ⊢
      simpa [firstNamesOf] using this

/-- C2, at the fixture: the male draw succeeds with "Sam" and "Doe", which
are members of the male list and of the last names. -/
theorem selected_values_are_members_witness :
    ∃ sex firstName lastName,
      nameRecord "Sam" "Doe" "Male" = nameRecord firstName lastName sex ∧
      (sex = "Male" ∨ sex = "Female") ∧
      (sex = "Male" → firstName ∈ fixtureNames.FirstNames.Male) ∧
      (sex = "Female" → firstName ∈ fixtureNames.FirstNames.Female) ∧
      lastName ∈ fixtureNames.LastNames :=
  (selected_values_are_members fixtureNames fixturePersonality [] ⟨"GET", "/name"⟩
    (constRng 0)).1 _ (by
      rw [nameHandler_eq]
      simp [fixtureNames, constRng, successRecord_jsonResponse, chosen_singleton])

/-- C3: `characterHandler` fails with the first applicable condition in the
order (1) the first-name list of the drawn sex is empty, (2) the last names
are empty, (3) the personality types or the alignments are empty, each as a
500 error with its own message, and succeeds exactly when none applies. -/
theorem characterHandler_failure_order (namesData : Names) (personalityData : PersonalityData)
    (hdr : Header) (r : Request) (g : Rng) :
    errorReply (characterHandler namesData personalityData (.unwritten hdr) r g) =
      (if firstNamesOf namesData (drawnSex g) = [] then
        some (500, if drawnSex g = "Male" then "No Male first names available\n"
          else "No Female first names available\n")
      else if namesData.LastNames = [] then
        some (500, "No last names available\n")
      else if personalityData.PersonalityTypes = [] ∨ personalityData.Alignment = [] then
        some (500, "Personality data not loaded or empty\n")
      else none) ∧
    ((successRecord (characterHandler namesData personalityData (.unwritten hdr) r g)).isSome ↔
      (firstNamesOf namesData (drawnSex g) ≠ [] ∧ namesData.LastNames ≠ [] ∧
        personalityData.PersonalityTypes ≠ [] ∧ personalityData.Alignment ≠ [])) := by
  rw [characterHandler_eq]
  constructor
  · split_ifs with hf hs <;>
      simp_all [errorReply_httpError, errorReply_jsonResponse, drawnSex]
  · split_ifs with hf hl hp <;>
      simp_all [successRecord_httpError, successRecord_jsonResponse]
    intro hne
    exact hp.resolve_left hne

/-- C4, at a dataset with no personality type and one alignment:
`personalityHandler` passes its emptiness check, reaches the random index
selection on the empty list and panics in `rand.Intn 0`, so the exchange
ends with neither a success record nor a 500 error. -/
theorem personalityHandler_panics_on_one_empty_list :
    personalityHandler noTypesPersonality (.unwritten []) ⟨"GET", "/personality"⟩ (constRng 0)
      = .error "invalid argument to Intn" ∧
    successRecord (personalityHandler noTypesPersonality (.unwritten [])
      ⟨"GET", "/personality"⟩ (constRng 0)) = none ∧
    errorReply (personalityHandler noTypesPersonality (.unwritten [])
      ⟨"GET", "/personality"⟩ (constRng 0)) = none := by
  rw [personalityHandler_eq]
  simp [noTypesPersonality, successRecord, errorReply]

/-- No panic in the name and character endpoints: `nameHandler` and
`characterHandler` always end with a success record or a 500 error;
`personalityHandler` does so when its two lists are both empty or both
non-empty, and panics when exactly one of them is empty. -/
theorem complete_record_or_error (namesData : Names) (personalityData : PersonalityData)
    (hdr : Header) (r : Request) (g : Rng) :
    ((successRecord (nameHandler namesData (.unwritten hdr) r g)).isSome ∨
      ∃ msg, errorReply (nameHandler namesData (.unwritten hdr) r g) = some (500, msg)) ∧
    ((successRecord (characterHandler namesData personalityData (.unwritten hdr) r g)).isSome ∨
      ∃ msg, errorReply (characterHandler namesData personalityData (.unwritten hdr) r g)
        = some (500, msg)) ∧
    (((personalityData.PersonalityTypes = [] ↔ personalityData.Alignment = []) →
      (successRecord (personalityHandler personalityData (.unwritten hdr) r g)).isSome ∨
      ∃ msg, errorReply (personalityHandler personalityData (.unwritten hdr) r g)
        = some (500, msg)) ∧
     (¬ (personalityData.PersonalityTypes = [] ↔ personalityData.Alignment = []) →
      personalityHandler personalityData (.unwritten hdr) r g
        = .error "invalid argument to Intn")) := by
  refine ⟨?_, ?_, ?_, ?_⟩
  · rw [nameHandler_eq]
    split_ifs <;> simp [successRecord_jsonResponse, errorReply_httpError]
  · rw [characterHandler_eq]
    split_ifs <;> simp [successRecord_jsonResponse, errorReply_httpError]
  · intro h
    rw [personalityHandler_eq]
    split_ifs with h0 h1
    · simp [errorReply_httpError]
    · exfalso
      rcases h1 with h1 | h1
      · exact h0 ⟨h1, h.mp h1⟩
      · exact h0 ⟨h.mpr h1, h1⟩
    · simp [successRecord_jsonResponse]
  · intro h
    rw [personalityHandler_eq]
    split_ifs with h0 h1
    · exact absurd (iff_of_true h0.1 h0.2) h
    · rfl
    · rw [not_or] at h1
      exact absurd (iff_of_false h1.1 h1.2) h

/-- C5: every successful `characterHandler` response has exactly the five
keys sex, firstName, lastName, personalityType and alignment; personalityType
is an object with exactly the fields name and link, whose values are strings,
and the other four values are strings. -/
theorem characterHandler_record_shape (namesData : Names) (personalityData : PersonalityData)
    (hdr : Header) (r : Request) (g : Rng) (v : Json)
    (h : successRecord (characterHandler namesData personalityData (.unwritten hdr) r g)
      = some v) :
    v.keys = ["sex", "firstName", "lastName", "personalityType", "alignment"] ∧
    (∃ s, v.field "sex" = some (.str s)) ∧
    (∃ s, v.field "firstName" = some (.str s)) ∧
    (∃ s, v.field "lastName" = some (.str s)) ∧
    (∃ s, v.field "alignment" = some (.str s)) ∧
    (∃ p, v.field "personalityType" = some p ∧ p.keys = ["name", "link"] ∧
      (∃ s, p.field "name" = some (.str s)) ∧ (∃ s, p.field "link" = some (.str s))) := by
  rw [characterHandler_eq] at h
  split_ifs at h
  all_goals simp only [successRecord_httpError, successRecord_jsonResponse, Option.some.injEq,
    reduceCtorEq] at h
  subst h
  simp [characterRecord, jsonOfPersonalityType, Json.keys, Json.field, List.lookup]

/-- C5, at the fixture datasets with the male draw. -/
theorem characterHandler_record_shape_witness :
    (characterRecord "Male" "Sam" "Doe" ⟨"INTJ", "https://example.org/intj"⟩
        "Lawful Good").keys
      = ["sex", "firstName", "lastName", "personalityType", "alignment"] :=
  (characterHandler_record_shape fixtureNames fixturePersonality [] ⟨"GET", "/character"⟩
    (constRng 0) _ (by
      rw [characterHandler_eq]
      simp [fixtureNames, fixturePersonality, constRng, successRecord_jsonResponse,
        chosen_singleton, drawnSex, firstNamesOf])).1

/-- C6: with male = ["Sam"], female = ["Alex"], lastNames = ["Doe"],
`nameHandler` succeeds for every state of the random source, with the record
of Sam Doe, Male, or the record of Alex Doe, Female. -/
theorem nameHandler_fixture (hdr : Header) (r : Request) (g : Rng) :
    successRecord (nameHandler fixtureNames (.unwritten hdr) r g)
        = some (nameRecord "Sam" "Doe" "Male") ∨
    successRecord (nameHandler fixtureNames (.unwritten hdr) r g)
        = some (nameRecord "Alex" "Doe" "Female") := by
  rw [nameHandler_eq]
  rcases Nat.mod_two_eq_zero_or_one (g.stream g.pos) with h2 | h2 <;>
    simp [fixtureNames, h2, successRecord_jsonResponse, chosen_singleton]

/-- C7: when the personality types and the alignments are both empty,
`personalityHandler` returns the 500 error "Personality data not loaded or
empty" for every state of the random source, and leaves the random source
as it was: it makes no draw. -/
theorem personalityHandler_both_empty (personalityData : PersonalityData) (hdr : Header)
    (r : Request) (g : Rng) (hp : personalityData.PersonalityTypes = [])
    (ha : personalityData.Alignment = []) :
    personalityHandler personalityData (.unwritten hdr) r g
      = .ok (httpError (.unwritten hdr) "Personality data not loaded or empty"
          StatusInternalServerError, g) ∧
    errorReply (personalityHandler personalityData (.unwritten hdr) r g)
      = some (500, "Personality data not loaded or empty\n") := by
  rw [personalityHandler_eq]
  simp [hp, ha, errorReply_httpError]

/-- C7, at the empty personality dataset. -/
theorem personalityHandler_both_empty_witness :
    errorReply (personalityHandler ⟨[], []⟩ (.unwritten []) ⟨"GET", "/personality"⟩
      (constRng 7)) = some (500, "Personality data not loaded or empty\n") :=
  (personalityHandler_both_empty ⟨[], []⟩ [] ⟨"GET", "/personality"⟩ (constRng 7) rfl rfl).2

/-- C8: for every wrapped handler and every process state, the handler
returned by `setupCORS` sets the three CORS headers; for the method OPTIONS
it then ends with status 200 and an empty body, the process state unchanged
and the response the same whatever the wrapped handler is (it is not
invoked); for every other method the result is that of one invocation of the
wrapped handler on the response writer carrying the three headers. -/
theorem setupCORS_spec {σ : Type} (handler : HandlerFunc σ) (hdr : Header) (r : Request)
    (s : σ) :
    (corsHeader hdr).Get "Access-Control-Allow-Origin" = "*" ∧
    (corsHeader hdr).Get "Access-Control-Allow-Methods" = "GET, POST, OPTIONS" ∧
    (corsHeader hdr).Get "Access-Control-Allow-Headers" = "Content-Type" ∧
    (if r.Method = "OPTIONS" then
      setupCORS handler (.unwritten hdr) r s
        = .ok ({ header := corsHeader hdr, status := some 200, body := [] }, s) ∧
      ∀ other : HandlerFunc σ,
        setupCORS other (.unwritten hdr) r s = setupCORS handler (.unwritten hdr) r s
    else
      setupCORS handler (.unwritten hdr) r s = handler (.unwritten (corsHeader hdr)) r s) := by
  refine ⟨?_, ?_, ?_, ?_⟩
  · simp [corsHeader, Header.Get, Header.Set, List.lookup]
  · simp [corsHeader, Header.Get, Header.Set, List.lookup]
  · simp [corsHeader, Header.Get, Header.Set, List.lookup]
  · split_ifs with hm
    · simp [setupCORS, hm, ResponseWriter.WriteHeader, ResponseWriter.SetHeader,
        ResponseWriter.unwritten, corsHeader, StatusOK]
    · simp [setupCORS, hm, ResponseWriter.SetHeader, ResponseWriter.unwritten, corsHeader]

/-- C9: the first-name check of `nameHandler` is made for the drawn sex only.
On a dataset with last names, no male first name and some female first name,
the male draw gives the 500 error "No Male first names available" and the
female draw a success record with sex "Female", and both draws occur; the
same holds with male and female swapped. -/
theorem nameHandler_check_follows_draw (namesData : Names) (hdr : Header) (r : Request)
    (hl : namesData.LastNames ≠ []) :
    (namesData.FirstNames.Male = [] → namesData.FirstNames.Female ≠ [] →
      (∀ g, drawnSex g = "Male" →
        errorReply (nameHandler namesData (.unwritten hdr) r g)
          = some (500, "No Male first names available\n")) ∧
      (∀ g, drawnSex g = "Female" →
        ∃ firstName lastName, successRecord (nameHandler namesData (.unwritten hdr) r g)
          = some (nameRecord firstName lastName "Female")) ∧
      (∃ g, errorReply (nameHandler namesData (.unwritten hdr) r g)
          = some (500, "No Male first names available\n")) ∧
      (∃ g firstName lastName, successRecord (nameHandler namesData (.unwritten hdr) r g)
          = some (nameRecord firstName lastName "Female"))) ∧
    (namesData.FirstNames.Female = [] → namesData.FirstNames.Male ≠ [] →
      (∀ g, drawnSex g = "Female" →
        errorReply (nameHandler namesData (.unwritten hdr) r g)
          = some (500, "No Female first names available\n")) ∧
      (∀ g, drawnSex g = "Male" →
        ∃ firstName lastName, successRecord (nameHandler namesData (.unwritten hdr) r g)
          = some (nameRecord firstName lastName "Male")) ∧
      (∃ g, errorReply (nameHandler namesData (.unwritten hdr) r g)
          = some (500, "No Female first names available\n")) ∧
      (∃ g firstName lastName, successRecord (nameHandler namesData (.unwritten hdr) r g)
          = some (nameRecord firstName lastName "Male"))) := by
  have hMale : ∀ g : Rng, drawnSex g = "Male" → g.stream g.pos % 2 = 0 := by
    intro g hg
    unfold drawnSex at hg
    split_ifs at hg with h
    · exact h
    · exact absurd hg (by decide)
  have hFemale : ∀ g : Rng, drawnSex g = "Female" → ¬ g.stream g.pos % 2 = 0 := by
    intro g hg
    unfold drawnSex at hg
    split_ifs at hg with h
    · exact absurd hg (by decide)
    · exact h
  constructor
  · intro hm hf
    have hfail : ∀ g, drawnSex g = "Male" →
        errorReply (nameHandler namesData (.unwritten hdr) r g)
          = some (500, "No Male first names available\n") := by
      intro g hg
      rw [nameHandler_eq]
      simp [hm, hf, hl, hMale g hg, errorReply_httpError]
    have hsucc : ∀ g, drawnSex g = "Female" →
        ∃ firstName lastName, successRecord (nameHandler namesData (.unwritten hdr) r g)
          = some (nameRecord firstName lastName "Female") := by
      intro g hg
      rw [nameHandler_eq]
      simp only [hm, hf, hl, hFemale g hg, false_and, and_false, if_false,
        successRecord_jsonResponse]
      exact ⟨_, _, rfl⟩
    refine ⟨hfail, hsucc, ⟨constRng 0, hfail _ ?_⟩, ⟨constRng 1, hsucc _ ?_⟩⟩
    · simp [drawnSex, constRng]
    · simp [drawnSex, constRng]
  · intro hf hm
    have hfail : ∀ g, drawnSex g = "Female" →
        errorReply (nameHandler namesData (.unwritten hdr) r g)
          = some (500, "No Female first names available\n") := by
      intro g hg
      rw [nameHandler_eq]
      simp [hm, hf, hl, hFemale g hg, errorReply_httpError]
    have hsucc : ∀ g, drawnSex g = "Male" →
        ∃ firstName lastName, successRecord (nameHandler namesData (.unwritten hdr) r g)
          = some (nameRecord firstName lastName "Male") := by
      intro g hg
      rw [nameHandler_eq]
      simp only [hm, hf, hl, hMale g hg, false_and, and_false, if_false, if_true,
        successRecord_jsonResponse]
      exact ⟨_, _, rfl⟩
    refine ⟨hfail, hsucc, ⟨constRng 1, hfail _ ?_⟩, ⟨constRng 0, hsucc _ ?_⟩⟩
    · simp [drawnSex, constRng]
    · simp [drawnSex, constRng]

/-- C9, at a dataset with no male first name: the male draw fails. -/
theorem nameHandler_check_follows_draw_witness :
    errorReply (nameHandler noMaleNames (.unwritten []) ⟨"GET", "/name"⟩ (constRng 0))
      = some (500, "No Male first names available\n") :=
  ((nameHandler_check_follows_draw noMaleNames [] ⟨"GET", "/name"⟩ (by decide)).1
    rfl (by decide)).1 (constRng 0) (by decide)

/-- C10: when the three name lists are not all empty and the personality
types and alignments are both non-empty, `characterHandler` and
`nameHandler`, run from the same state of the random source, fail in the
same cases with the same status and message, and when they succeed the
character record carries the sex, first name and last name of the name
record. -/
theorem characterHandler_agrees_with_nameHandler (namesData : Names)
    (personalityData : PersonalityData) (hdr : Header) (r : Request) (g : Rng)
    (hn : ¬ (namesData.FirstNames.Male = [] ∧ namesData.FirstNames.Female = []
      ∧ namesData.LastNames = []))
    (hp : personalityData.PersonalityTypes ≠ []) (ha : personalityData.Alignment ≠ []) :
    errorReply (characterHandler namesData personalityData (.unwritten hdr) r g)
      = errorReply (nameHandler namesData (.unwritten hdr) r g) ∧
    ((successRecord (characterHandler namesData personalityData (.unwritten hdr) r g)).isSome ↔
      (successRecord (nameHandler namesData (.unwritten hdr) r g)).isSome) ∧
    ((∃ msg, errorReply (nameHandler namesData (.unwritten hdr) r g) = some (500, msg)) ∨
      ∃ sex firstName lastName p alignment,
        successRecord (nameHandler namesData (.unwritten hdr) r g)
          = some (nameRecord firstName lastName sex) ∧
        successRecord (characterHandler namesData personalityData (.unwritten hdr) r g)
          = some (characterRecord sex firstName lastName p alignment)) := by
  rw [nameHandler_eq, characterHandler_eq]
  unfold firstNamesOf drawnSex
  rcases Nat.mod_two_eq_zero_or_one (g.stream g.pos) with h2 | h2 <;>
    by_cases hm : namesData.FirstNames.Male = [] <;>
    by_cases hf : namesData.FirstNames.Female = [] <;>
    by_cases hl : namesData.LastNames = [] <;>
    simp_all [errorReply_httpError, errorReply_jsonResponse, successRecord_httpError,
      successRecord_jsonResponse]
  all_goals exact ⟨_, _, _, rfl, _, _, rfl⟩

/-- C10, at the fixture datasets with the male draw: both handlers succeed. -/
theorem characterHandler_agrees_with_nameHandler_witness :
    (successRecord (characterHandler fixtureNames fixturePersonality (.unwritten [])
        ⟨"GET", "/character"⟩ (constRng 0))).isSome ↔
      (successRecord (nameHandler fixtureNames (.unwritten [])
        ⟨"GET", "/character"⟩ (constRng 0))).isSome :=
  (characterHandler_agrees_with_nameHandler fixtureNames fixturePersonality []
    ⟨"GET", "/character"⟩ (constRng 0) (by decide) (by decide) (by decide)).2.1

end CharacterRandomizer
